import Mathlib

/-!
Shallow embedding of `src/instana/fsm.py` (the Instana python-sensor
discovery/announce handshake) and proofs about it.

The module wires three fysom events — `lookup` (src `*`, dst `found`),
`announce` (src `found`, dst `announced`), `ready` (src `announced`,
dst `good2go`) — to the callbacks `lookup_agent_host`, `announce_sensor`
and `start_metric_reporting` under the keys `onlookup`, `onannounce`,
`onready`.  In fysom, `on<event>` is shorthand for `onafter<event>`: the
library first sets `current` to the destination state and only then runs
the callback.  The embedding below reproduces that order in `fireLookup`,
`fireAnnounce` and `fireReady`.  Exceptions that escape a callback
(a `ValueError` from `int()`, a failed socket connect, an `IndexError`
on an empty command line, a `FysomError` from an event fired in the
wrong state) abort the rest of the callback; every such point in the
source occurs before any further mutation of the machine, so the
embedding returns the machine unchanged there.
-/

namespace Instana

/-- Modelled from the spec: the known marker header value imported from
`agent_const` (that file is not under `src/`); the spec only calls it
"a known marker value", so the concrete string is a placeholder whose
exact value no claim depends on. -/
def AGENT_HEADER : String := "Instana Agent"

/-- Modelled from the spec: the built-in default agent host imported from
`agent_const` (not under `src/`). -/
def AGENT_DEFAULT_HOST : String := "localhost"

/-- Modelled from the spec: the built-in default agent port imported from
`agent_const` (not under `src/`). -/
def AGENT_DEFAULT_PORT : Int := 42699

/-- Whitespace characters stripped by Python `int()` before parsing. -/
def isPySpace (c : Char) : Bool :=
  c = ' ' ∨ c = '\t' ∨ c = '\n' ∨ c = '\r' ∨ c = '\x0b' ∨ c = '\x0c'

/-- Model of Python `int(s)` on a string: surrounding whitespace is
stripped, an optional single leading sign is allowed, and the remainder
must be a nonempty digit string; every other string raises `ValueError`,
modelled as `none`. -/
def pyInt (s : String) : Option Int :=
  let t := ((s.data.dropWhile isPySpace).reverse.dropWhile isPySpace).reverse
  match t with
  | [] => none
  | c :: rest =>
      let neg := c = '-'
      let digits := if c = '-' ∨ c = '+' then rest else c :: rest
      if digits ≠ [] ∧ digits.all Char.isDigit then
        let n : Nat := digits.foldl (fun acc ch => acc * 10 + (ch.toNat - 48)) 0
        some (if neg then -(n : Int) else (n : Int))
      else none

/-- The environment variables consulted by `Fsm.__get_agent_host_port`:
`INSTANA_AGENT_HOST`, `INSTANA_AGENT_PORT` and the deprecated
`INSTANA_AGENT_IP`.  `none` means the variable is absent from
`os.environ`. -/
structure Environ where
  instanaAgentHost : Option String
  instanaAgentPort : Option String
  instanaAgentIp : Option String
deriving DecidableEq

/-- The `agent.sensor.options` fields consulted by
`Fsm.__get_agent_host_port`. -/
structure Options where
  agent_host : String
  agent_port : Int
deriving DecidableEq

/-- Embedding of `Fsm.__get_agent_host_port` (src/instana/fsm.py lines
221-246).  `Except.error` marks the uncaught `ValueError` raised by
`int()` on a non-integer `INSTANA_AGENT_PORT`. -/
def getAgentHostPort (env : Environ) (opts : Options) :
    Except String (String × Int) :=
  match env.instanaAgentHost with
  | some h =>
      match env.instanaAgentPort with
      | some p =>
          match pyInt p with
          | some n => Except.ok (h, n)
          | none => Except.error "ValueError"
      | none => Except.ok (h, AGENT_DEFAULT_PORT)
  | none =>
      match env.instanaAgentIp with
      | some h =>
          match env.instanaAgentPort with
          | some p =>
              match pyInt p with
              | some n => Except.ok (h, n)
              | none => Except.error "ValueError"
          | none => Except.ok (h, AGENT_DEFAULT_PORT)
      | none =>
          if opts.agent_host ≠ "" then
            Except.ok (opts.agent_host,
              if opts.agent_port ≠ 0 then opts.agent_port
              else AGENT_DEFAULT_PORT)
          else
            Except.ok (AGENT_DEFAULT_HOST, AGENT_DEFAULT_PORT)

/-- The fysom states of the handshake machine.  The config in
`Fsm.__init__` sets no initial state, so fysom starts in its pseudo-state
`none`, which the spec calls `Unresolved`; the remaining three are the
destinations of the `lookup`, `announce` and `ready` events. -/
inductive FState where
  | unresolved
  | found
  | announced
  | good2go
deriving DecidableEq

/-- Position of a state along the forward chain
`unresolved → found → announced → good2go`. -/
def ordF : FState → Nat
  | FState.unresolved => 0
  | FState.found => 1
  | FState.announced => 2
  | FState.good2go => 3

/-- The mutable fields of the shared agent-connection object that
`fsm.py` writes: `agent.host`, `agent.port`, and `agent.from_`
(populated by `agent.set_from(b)` from the announce response; we track
the pid it carries). -/
structure AgentConn where
  host : String
  port : Int
  fromPid : Option Int
deriving DecidableEq

/-- The observable state of one `Fsm` instance plus ghost counters:
`warnCount` counts warning-level "agent not found" log lines,
`meterRuns` counts calls of `agent.sensor.meter.run()`, `retries`
records the labels passed to `schedule_retry` in order, and `visited`
records every assignment fysom makes to `current` (the destination of
each completed transition, in order). -/
structure Machine where
  fsmState : FState
  conn : AgentConn
  warnedPeriodic : Bool
  warnCount : Nat
  meterRuns : Nat
  retries : List String
  visited : List FState
deriving DecidableEq

/-- The machine as built by `Fsm.__init__`: fysom state `none`
("unresolved"), the latch `warnedPeriodic = False`, and no side effects
recorded yet.  The agent connection's host/port are not yet set; their
initial contents are immaterial. -/
def initMachine : Machine :=
  { fsmState := FState.unresolved
    conn := { host := "", port := 0, fromPid := none }
    warnedPeriodic := false
    warnCount := 0
    meterRuns := 0
    retries := []
    visited := [] }

/-- The parsed announce response body, as consumed by
`agent.set_from(b)`; we track the agent-assigned pid
(`agent.from_.pid`). -/
structure AnnResp where
  pid : Int
deriving DecidableEq

/-- The external inputs of one handshake attempt: the environment and
options read by `__get_agent_host_port`, the outcome of the header
probe `check_host` for each candidate host/port, whether `/proc/`
exists, the result of `get_default_gateway` (`none` for an exception,
which the source logs and turns into `None`), the resolved command
line, the pid parsed from `/proc/<pid>/sched` (`none` when the file is
absent or unparsable), `os.getpid()`, the throwaway socket's
fd/readlink result (`none` when the connect or readlink raises), and
the announce response body (`none` for an empty/falsy response).
Fields describing `/proc`-derived data are only consulted when
`procExists` is true. -/
structure Attempt where
  environ : Environ
  opts : Options
  checkHost : String → Int → Option String
  procExists : Bool
  gateway : Option String
  cmdline : List String
  schedPid : Option Int
  ospid : Int
  sockConn : Option (Int × String)
  announceResp : Option AnnResp

/-- Embedding of `Fsm.__get_real_pid`: on a system with `/proc/`, the
pid parsed out of `/proc/<pid>/sched` when that succeeds, otherwise
`os.getpid()`. -/
def getRealPid (a : Attempt) : Int :=
  if a.procExists then a.schedPid.getD a.ospid else a.ospid

/-- Embedding of the `Discovery` class with its class-level defaults
`pid = 0`, `name = None`, `args = None` (built instances always pass a
list; we default to `[]`), `fd = -1`, `inode = ""`. -/
structure Discovery where
  pid : Int := 0
  name : Option String := none
  args : List String := []
  fd : Int := -1
  inode : String := ""
deriving DecidableEq

/-- Values appearing in the dict built by `Discovery.to_dict`. -/
inductive PyVal where
  | int (n : Int)
  | str (s : String)
  | strList (xs : List String)
  | pyNone
deriving DecidableEq

/-- Embedding of `Discovery.to_dict`: the serialized discovery record,
always carrying the five keys `pid`, `name`, `args`, `fd`, `inode`. -/
def Discovery.to_dict (d : Discovery) : List (String × PyVal) :=
  [("pid", PyVal.int d.pid),
   ("name", match d.name with | some s => PyVal.str s | none => PyVal.pyNone),
   ("args", PyVal.strList d.args),
   ("fd", PyVal.int d.fd),
   ("inode", PyVal.str d.inode)]

/-- The discovery record `announce_sensor` builds and sends.  `none`
marks the attempts that raise before the PUT: an empty command line
(`cmdline[0]` raises `IndexError`), or `/proc/` present but the
throwaway socket connect / `os.readlink` raising. -/
def builtDiscovery (a : Attempt) : Option Discovery :=
  match a.cmdline with
  | [] => none
  | n :: args =>
      let d : Discovery := { pid := getRealPid a, name := some n, args := args }
      if a.procExists then
        match a.sockConn with
        | some fdInode => some { d with fd := fdInode.1, inode := fdInode.2 }
        | none => none
      else some d

/-- Embedding of `Fsm.start_metric_reporting`
(`agent.sensor.meter.run()`), counted by the ghost field. -/
def startMetricReporting (m : Machine) : Machine :=
  { m with meterRuns := m.meterRuns + 1 }

/-- The fysom `ready` event: legal only from `announced` (a
`FysomError` otherwise aborts with no effect); on success `current`
becomes `good2go` and the `onready` callback
`start_metric_reporting` runs. -/
def fireReady (m : Machine) : Machine :=
  if m.fsmState = FState.announced then
    startMetricReporting
      { m with fsmState := FState.good2go
               visited := m.visited ++ [FState.good2go] }
  else m

/-- Embedding of `Fsm.announce_sensor` (src/instana/fsm.py lines
127-175): build the discovery record; on a truthy response body call
`agent.set_from(b)` and fire the `ready` event, otherwise schedule one
retry labelled "announce". -/
def announce_sensor (a : Attempt) (m : Machine) : Machine :=
  match builtDiscovery a with
  | none => m
  | some _ =>
      match a.announceResp with
      | some b =>
          fireReady { m with conn := { m.conn with fromPid := some b.pid } }
      | none => { m with retries := m.retries ++ ["announce"] }

/-- The fysom `announce` event: legal only from `found`; on success
`current` becomes `announced` and the `onannounce` callback
`announce_sensor` runs. -/
def fireAnnounce (a : Attempt) (m : Machine) : Machine :=
  if m.fsmState = FState.found then
    announce_sensor a
      { m with fsmState := FState.announced
               visited := m.visited ++ [FState.announced] }
  else m

/-- The failure tail of `Fsm.lookup_agent_host`: emit the one-time
warning if the latch is still clear, then schedule one retry labelled
"agent_lookup". -/
def lookupFail (m : Machine) : Machine :=
  if m.warnedPeriodic = false then
    { m with warnedPeriodic := true, warnCount := m.warnCount + 1,
             retries := m.retries ++ ["agent_lookup"] }
  else { m with retries := m.retries ++ ["agent_lookup"] }

/-- Embedding of `Fsm.lookup_agent_host` (src/instana/fsm.py lines
78-102): resolve the endpoint (an uncaught `ValueError` aborts the
callback with nothing mutated), probe it; on the marker header record
host/port on the agent connection and fire `announce`; otherwise, when
`/proc/` exists and the default gateway is truthy, probe the gateway
with the same port; on all failures run the warn/retry tail. -/
def lookup_agent_host (a : Attempt) (m : Machine) : Machine :=
  match getAgentHostPort a.environ a.opts with
  | Except.error _ => m
  | Except.ok hp =>
      if a.checkHost hp.1 hp.2 = some AGENT_HEADER then
        fireAnnounce a
          { m with conn := { m.conn with host := hp.1, port := hp.2 } }
      else if a.procExists then
        match a.gateway with
        | some gw =>
            if gw ≠ "" ∧ a.checkHost gw hp.2 = some AGENT_HEADER then
              fireAnnounce a
                { m with conn := { m.conn with host := gw, port := hp.2 } }
            else lookupFail m
        | none => lookupFail m
      else lookupFail m

/-- The fysom `lookup` event (src `*`, dst `found`): from any state
other than `found`, `current` becomes `found` and the transition is
recorded; then the `onlookup` callback `lookup_agent_host` runs. -/
def fireLookup (a : Attempt) (m : Machine) : Machine :=
  if m.fsmState = FState.found then lookup_agent_host a m
  else
    lookup_agent_host a
      { m with fsmState := FState.found
               visited := m.visited ++ [FState.found] }

/-- External events that can reach a constructed machine after the
startup timer's initial `fsm.lookup()`: a pending "agent_lookup" retry
timer fires (it calls `lookup_agent_host` directly, no fysom event), a
pending "announce" retry timer fires (it calls `announce_sensor`
directly), or `Fsm.reset` is called (it fires the fysom `lookup`
event). -/
inductive Ev where
  | retryLookup (a : Attempt)
  | retryAnnounce (a : Attempt)
  | reset (a : Attempt)

/-- Whether an event is an explicit `reset()` call. -/
def Ev.isReset : Ev → Bool
  | Ev.reset _ => true
  | _ => false

/-- Semantics of one external event. -/
def stepEv (e : Ev) (m : Machine) : Machine :=
  match e with
  | Ev.retryLookup a => lookup_agent_host a m
  | Ev.retryAnnounce a => announce_sensor a m
  | Ev.reset a => fireLookup a m

/-- One sequential execution of a machine instance: the startup timer
fires `fsm.lookup()` with inputs `a0`, then the listed events run in
order. -/
def run (a0 : Attempt) (evs : List Ev) : Machine :=
  evs.foldl (fun m e => stepEv e m) (fireLookup a0 initMachine)

/-- `monotoneFrom s l` holds when the state sequence `s :: l` never
steps backward along the chain ordered by `ordF`. -/
def monotoneFrom : FState → List FState → Bool
  | _, [] => true
  | s, x :: xs => decide (ordF s ≤ ordF x) && monotoneFrom x xs

/-- `lastFrom s l` is the last element of `l`, or `s` when `l` is
empty: the state the machine is in after the recorded transitions `l`
starting from `s`. -/
def lastFrom : FState → List FState → FState
  | s, [] => s
  | _, x :: xs => lastFrom x xs

/-- Concrete attempt: nothing configured, the agent answers the
configured-endpoint probe with the marker header, the announce response
carries agent pid 88; no `/proc/`. -/
def aGood : Attempt :=
  { environ := { instanaAgentHost := none, instanaAgentPort := none,
                 instanaAgentIp := none }
    opts := { agent_host := "", agent_port := 0 }
    checkHost := fun _ _ => some AGENT_HEADER
    procExists := false
    gateway := none
    cmdline := ["python"]
    schedPid := none
    ospid := 7
    sockConn := none
    announceResp := some { pid := 88 } }

/-- Concrete attempt: the probe matches but the announce response is
empty; no `/proc/`. -/
def aEmptyResp : Attempt :=
  { environ := { instanaAgentHost := none, instanaAgentPort := none,
                 instanaAgentIp := none }
    opts := { agent_host := "", agent_port := 0 }
    checkHost := fun _ _ => some AGENT_HEADER
    procExists := false
    gateway := none
    cmdline := ["python", "app.py"]
    schedPid := none
    ospid := 7
    sockConn := none
    announceResp := none }

/-- Concrete attempt: no agent anywhere (every probe returns no
header), introspection unavailable. -/
def aNoAgent : Attempt :=
  { environ := { instanaAgentHost := none, instanaAgentPort := none,
                 instanaAgentIp := none }
    opts := { agent_host := "", agent_port := 0 }
    checkHost := fun _ _ => none
    procExists := false
    gateway := none
    cmdline := ["python", "app.py"]
    schedPid := none
    ospid := 7
    sockConn := none
    announceResp := none }

/-- Concrete attempt on a `/proc/` system where the kernel-observed pid
(42, from the sched file) differs from the self-observed pid (1); the
throwaway socket yields fd 5 with inode `socket:[12345]`, the probe
matches, and the announce response is empty. -/
def aPid : Attempt :=
  { environ := { instanaAgentHost := none, instanaAgentPort := none,
                 instanaAgentIp := none }
    opts := { agent_host := "", agent_port := 0 }
    checkHost := fun _ _ => some AGENT_HEADER
    procExists := true
    gateway := none
    cmdline := ["python", "app.py"]
    schedPid := some 42
    ospid := 1
    sockConn := some (5, "socket:[12345]")
    announceResp := none }

/-- A machine whose one-time warning latch is already set. -/
def mWarned : Machine := { initMachine with warnedPeriodic := true }

/-- The C9 invariant: at most one warning-level "agent not found" line
has been emitted, and none before the latch is set. -/
def Inv9 (m : Machine) : Prop :=
  m.warnCount ≤ 1 ∧ (m.warnedPeriodic = false → m.warnCount = 0)

lemma inv9_fireReady (m : Machine) (h : Inv9 m) : Inv9 (fireReady m) := by
  unfold fireReady startMetricReporting
  split <;> exact h

lemma inv9_announce (a : Attempt) (m : Machine) (h : Inv9 m) :
    Inv9 (announce_sensor a m) := by
  unfold announce_sensor
  split
  · exact h
  · split
    · exact inv9_fireReady _ h
    · exact h

lemma inv9_fireAnnounce (a : Attempt) (m : Machine) (h : Inv9 m) :
    Inv9 (fireAnnounce a m) := by
  unfold fireAnnounce
  split
  · exact inv9_announce _ _ h
  · exact h

lemma inv9_lookupFail (m : Machine) (h : Inv9 m) : Inv9 (lookupFail m) := by
  unfold lookupFail Inv9 at *
  split
  · next hw => simp_all
  · simp_all

lemma inv9_lookup (a : Attempt) (m : Machine) (h : Inv9 m) :
    Inv9 (lookup_agent_host a m) := by
  unfold lookup_agent_host
  split
  · exact h
  · split
    · exact inv9_fireAnnounce _ _ h
    · split
      · split
        · split
          · exact inv9_fireAnnounce _ _ h
          · exact inv9_lookupFail _ h
        · exact inv9_lookupFail _ h
      · exact inv9_lookupFail _ h

lemma inv9_fireLookup (a : Attempt) (m : Machine) (h : Inv9 m) :
    Inv9 (fireLookup a m) := by
  unfold fireLookup
  split
  · exact inv9_lookup _ _ h
  · exact inv9_lookup _ _ h

lemma inv9_step (e : Ev) (m : Machine) (h : Inv9 m) : Inv9 (stepEv e m) := by
  cases e with
  | retryLookup a => exact inv9_lookup a m h
  | retryAnnounce a => exact inv9_announce a m h
  | reset a => exact inv9_fireLookup a m h

lemma inv9_foldl (evs : List Ev) (m : Machine) (h : Inv9 m) :
    Inv9 (evs.foldl (fun m e => stepEv e m) m) := by
  induction evs generalizing m with
  | nil => exact h
  | cons e es ih => exact ih _ (inv9_step e m h)

lemma inv9_run (a0 : Attempt) (evs : List Ev) : Inv9 (run a0 evs) := by
  unfold run
  exact inv9_foldl _ _ (inv9_fireLookup _ _ ⟨Nat.zero_le 1, fun _ => rfl⟩)

lemma warned_fireReady (m : Machine) (h : m.warnedPeriodic = true) :
    (fireReady m).warnedPeriodic = true := by
  unfold fireReady startMetricReporting
  split <;> exact h

lemma warned_announce (a : Attempt) (m : Machine)
    (h : m.warnedPeriodic = true) :
    (announce_sensor a m).warnedPeriodic = true := by
  unfold announce_sensor
  split
  · exact h
  · split
    · exact warned_fireReady _ h
    · exact h

lemma warned_fireAnnounce (a : Attempt) (m : Machine)
    (h : m.warnedPeriodic = true) :
    (fireAnnounce a m).warnedPeriodic = true := by
  unfold fireAnnounce
  split
  · exact warned_announce _ _ h
  · exact h

lemma warned_lookupFail (m : Machine) (h : m.warnedPeriodic = true) :
    (lookupFail m).warnedPeriodic = true := by
  unfold lookupFail
  split
  · rfl
  · exact h

lemma warned_lookup (a : Attempt) (m : Machine)
    (h : m.warnedPeriodic = true) :
    (lookup_agent_host a m).warnedPeriodic = true := by
  unfold lookup_agent_host
  split
  · exact h
  · split
    · exact warned_fireAnnounce _ _ h
    · split
      · split
        · split
          · exact warned_fireAnnounce _ _ h
          · exact warned_lookupFail _ h
        · exact warned_lookupFail _ h
      · exact warned_lookupFail _ h

lemma warned_fireLookup (a : Attempt) (m : Machine)
    (h : m.warnedPeriodic = true) :
    (fireLookup a m).warnedPeriodic = true := by
  unfold fireLookup
  split
  · exact warned_lookup _ _ h
  · exact warned_lookup _ _ h

lemma warned_step (e : Ev) (m : Machine) (h : m.warnedPeriodic = true) :
    (stepEv e m).warnedPeriodic = true := by
  cases e with
  | retryLookup a => exact warned_lookup a m h
  | retryAnnounce a => exact warned_announce a m h
  | reset a => exact warned_fireLookup a m h

/-- The C4 invariant: the telemetry collaborator has run exactly once
when the machine is in the terminal state and never before (holds along
executions that contain no `reset()`). -/
def Inv4 (m : Machine) : Prop :=
  m.meterRuns = if m.fsmState = FState.good2go then 1 else 0

lemma inv4_fireReady (m : Machine) (h : Inv4 m) : Inv4 (fireReady m) := by
  unfold fireReady startMetricReporting Inv4 at *
  split
  · next hst => simp_all
  · exact h

lemma inv4_announce (a : Attempt) (m : Machine) (h : Inv4 m) :
    Inv4 (announce_sensor a m) := by
  unfold announce_sensor
  split
  · exact h
  · split
    · exact inv4_fireReady _ h
    · exact h

lemma inv4_fireAnnounce (a : Attempt) (m : Machine) (h : Inv4 m) :
    Inv4 (fireAnnounce a m) := by
  unfold fireAnnounce
  split
  · next hst =>
      apply inv4_announce
      unfold Inv4 at *
      simp_all
  · exact h

lemma inv4_lookupFail (m : Machine) (h : Inv4 m) : Inv4 (lookupFail m) := by
  unfold lookupFail
  split
  · exact h
  · exact h

lemma inv4_lookup (a : Attempt) (m : Machine) (h : Inv4 m) :
    Inv4 (lookup_agent_host a m) := by
  unfold lookup_agent_host
  split
  · exact h
  · split
    · exact inv4_fireAnnounce _ _ h
    · split
      · split
        · split
          · exact inv4_fireAnnounce _ _ h
          · exact inv4_lookupFail _ h
        · exact inv4_lookupFail _ h
      · exact inv4_lookupFail _ h

lemma inv4_fireLookup (a : Attempt) (m : Machine) (h : Inv4 m)
    (hs : m.fsmState ≠ FState.good2go) : Inv4 (fireLookup a m) := by
  unfold fireLookup
  split
  · exact inv4_lookup _ _ h
  · apply inv4_lookup
    unfold Inv4 at *
    simp_all

lemma inv4_foldl (evs : List Ev) (m : Machine) (h : Inv4 m)
    (hnr : ∀ e ∈ evs, e.isReset = false) :
    Inv4 (evs.foldl (fun m e => stepEv e m) m) := by
  induction evs generalizing m with
  | nil => exact h
  | cons e es ih =>
      refine ih _ ?_ (fun x hx => hnr x (List.mem_cons_of_mem _ hx))
      cases e with
      | retryLookup a => exact inv4_lookup a m h
      | retryAnnounce a => exact inv4_announce a m h
      | reset a =>
          have hf := hnr (Ev.reset a) (List.mem_cons_self _ _)
          simp [Ev.isReset] at hf

lemma inv4_run (a0 : Attempt) (evs : List Ev)
    (hnr : ∀ e ∈ evs, e.isReset = false) : Inv4 (run a0 evs) := by
  unfold run
  exact inv4_foldl _ _ (inv4_fireLookup _ _ rfl (by decide)) hnr

/-- The C8 invariant: the recorded state trajectory never steps
backward along `ordF`, and the current fysom state is the last recorded
transition destination (holds along executions that contain no
`reset()`). -/
def Inv8 (m : Machine) : Prop :=
  monotoneFrom FState.unresolved m.visited = true ∧
  m.fsmState = lastFrom FState.unresolved m.visited

lemma lastFrom_append (x s : FState) (l : List FState) :
    lastFrom s (l ++ [x]) = x := by
  induction l generalizing s with
  | nil => rfl
  | cons a as ih => exact ih a

lemma monotoneFrom_append (x s : FState) (l : List FState)
    (h : monotoneFrom s l = true)
    (hx : ordF (lastFrom s l) ≤ ordF x) :
    monotoneFrom s (l ++ [x]) = true := by
  induction l generalizing s with
  | nil =>
      simp only [lastFrom] at hx
      simp [monotoneFrom, hx]
  | cons a as ih =>
      simp only [lastFrom] at hx
      simp only [List.cons_append, monotoneFrom, Bool.and_eq_true] at h ⊢
      exact ⟨h.1, ih a h.2 hx⟩

lemma inv8_fireReady (m : Machine) (h : Inv8 m) : Inv8 (fireReady m) := by
  unfold fireReady startMetricReporting
  split
  · next hst =>
      obtain ⟨h1, h2⟩ := h
      refine ⟨?_, ?_⟩
      · show monotoneFrom FState.unresolved
            (m.visited ++ [FState.good2go]) = true
        refine monotoneFrom_append _ _ _ h1 ?_
        rw [← h2, hst]; decide
      · show FState.good2go =
            lastFrom FState.unresolved (m.visited ++ [FState.good2go])
        rw [lastFrom_append]
  · exact h

lemma inv8_announce (a : Attempt) (m : Machine) (h : Inv8 m) :
    Inv8 (announce_sensor a m) := by
  unfold announce_sensor
  split
  · exact h
  · split
    · exact inv8_fireReady _ h
    · exact h

lemma inv8_fireAnnounce (a : Attempt) (m : Machine) (h : Inv8 m) :
    Inv8 (fireAnnounce a m) := by
  unfold fireAnnounce
  split
  · next hst =>
      apply inv8_announce
      obtain ⟨h1, h2⟩ := h
      refine ⟨?_, ?_⟩
      · show monotoneFrom FState.unresolved
            (m.visited ++ [FState.announced]) = true
        refine monotoneFrom_append _ _ _ h1 ?_
        rw [← h2, hst]; decide
      · show FState.announced =
            lastFrom FState.unresolved (m.visited ++ [FState.announced])
        rw [lastFrom_append]
  · exact h

lemma inv8_lookupFail (m : Machine) (h : Inv8 m) : Inv8 (lookupFail m) := by
  unfold lookupFail
  split
  · exact h
  · exact h

lemma inv8_lookup (a : Attempt) (m : Machine) (h : Inv8 m) :
    Inv8 (lookup_agent_host a m) := by
  unfold lookup_agent_host
  split
  · exact h
  · split
    · exact inv8_fireAnnounce _ _ h
    · split
      · split
        · split
          · exact inv8_fireAnnounce _ _ h
          · exact inv8_lookupFail _ h
        · exact inv8_lookupFail _ h
      · exact inv8_lookupFail _ h

lemma inv8_fireLookup (a : Attempt) (m : Machine) (h : Inv8 m)
    (hs : ordF m.fsmState ≤ 1) : Inv8 (fireLookup a m) := by
  unfold fireLookup
  split
  · exact inv8_lookup _ _ h
  · apply inv8_lookup
    obtain ⟨h1, h2⟩ := h
    refine ⟨?_, ?_⟩
    · show monotoneFrom FState.unresolved
          (m.visited ++ [FState.found]) = true
      refine monotoneFrom_append _ _ _ h1 ?_
      rw [← h2]; exact hs
    · show FState.found =
          lastFrom FState.unresolved (m.visited ++ [FState.found])
      rw [lastFrom_append]

lemma inv8_foldl (evs : List Ev) (m : Machine) (h : Inv8 m)
    (hnr : ∀ e ∈ evs, e.isReset = false) :
    Inv8 (evs.foldl (fun m e => stepEv e m) m) := by
  induction evs generalizing m with
  | nil => exact h
  | cons e es ih =>
      refine ih _ ?_ (fun x hx => hnr x (List.mem_cons_of_mem _ hx))
      cases e with
      | retryLookup a => exact inv8_lookup a m h
      | retryAnnounce a => exact inv8_announce a m h
      | reset a =>
          have hf := hnr (Ev.reset a) (List.mem_cons_self _ _)
          simp [Ev.isReset] at hf

lemma inv8_run (a0 : Attempt) (evs : List Ev)
    (hnr : ∀ e ∈ evs, e.isReset = false) : Inv8 (run a0 evs) := by
  unfold run
  exact inv8_foldl _ _ (inv8_fireLookup _ _ ⟨rfl, rfl⟩ (by decide)) hnr

/-- C9: across every sequence of lookup failures within one machine
instance's lifetime, including sequences interleaved with `reset()`
calls, the warning-level "agent not found" line is emitted at most once,
and the `warnedPeriodic` latch, once set, is never cleared by any later
event (in particular not by `reset()`). -/
theorem c9_warning_latch :
    (∀ a0 evs, (run a0 evs).warnCount ≤ 1) ∧
    (∀ e m, m.warnedPeriodic = true → (stepEv e m).warnedPeriodic = true) :=
  ⟨fun a0 evs => (inv9_run a0 evs).1, fun e m h => warned_step e m h⟩

/-- Witness for C9: a failing run emits at most one warning, and a
machine with the latch set keeps it set across a `reset()`. -/
theorem c9_warning_latch_witness :
    (run aNoAgent []).warnCount ≤ 1 ∧
    (stepEv (Ev.reset aNoAgent) mWarned).warnedPeriodic = true :=
  ⟨c9_warning_latch.1 aNoAgent [],
   c9_warning_latch.2 (Ev.reset aNoAgent) mWarned rfl⟩

/-- C8: over every execution without a `reset()` call, the recorded
state trajectory is monotone along
`unresolved → found → announced → good2go` (no backward transition),
and the current state is the last recorded transition destination. -/
theorem c8_monotone_states (a0 : Attempt) (evs : List Ev)
    (hnr : ∀ e ∈ evs, e.isReset = false) :
    monotoneFrom FState.unresolved (run a0 evs).visited = true ∧
    (run a0 evs).fsmState = lastFrom FState.unresolved (run a0 evs).visited :=
  inv8_run a0 evs hnr

/-- Witness for C8 at a concrete reset-free execution. -/
theorem c8_monotone_states_witness :
    monotoneFrom FState.unresolved (run aGood []).visited = true ∧
    (run aGood []).fsmState =
      lastFrom FState.unresolved (run aGood []).visited :=
  c8_monotone_states aGood [] (fun e he => absurd he (List.not_mem_nil e))

/-- C4 counterexample: in an execution containing a `reset()` after the
machine reached `good2go`, a second successful handshake runs
`agent.sensor.meter.run()` a second time, so the telemetry-start
collaborator is not invoked exactly once over every execution. -/
theorem c4_counterexample : (run aGood [Ev.reset aGood]).meterRuns = 2 := rfl

/-- C4 (amended): along every execution without a `reset()` call, the
telemetry-start collaborator runs at most once, and it has run exactly
once precisely when the machine has reached the terminal `good2go`
state. -/
theorem c4_meter_once (a0 : Attempt) (evs : List Ev)
    (hnr : ∀ e ∈ evs, e.isReset = false) :
    (run a0 evs).meterRuns ≤ 1 ∧
    ((run a0 evs).meterRuns = 1 ↔ (run a0 evs).fsmState = FState.good2go) := by
  have h := inv4_run a0 evs hnr
  unfold Inv4 at h
  constructor
  · rw [h]; split <;> simp
  · rw [h]; split <;> simp_all

/-- Witness for C4 at a concrete reset-free execution that completes
the handshake. -/
theorem c4_meter_once_witness :
    (run aGood []).meterRuns ≤ 1 ∧
    ((run aGood []).meterRuns = 1 ↔ (run aGood []).fsmState = FState.good2go) :=
  c4_meter_once aGood [] (fun e he => absurd he (List.not_mem_nil e))

/-- An environment with `INSTANA_AGENT_HOST` set and
`INSTANA_AGENT_PORT` set to a non-integer string. -/
def envBadPort : Environ :=
  { instanaAgentHost := some "10.0.0.5", instanaAgentPort := some "abc",
    instanaAgentIp := none }

/-- Options with no agent host/port configured. -/
def optsNone : Options := { agent_host := "", agent_port := 0 }

/-- C3 counterexample: with `INSTANA_AGENT_HOST=10.0.0.5` and
`INSTANA_AGENT_PORT=abc`, `__get_agent_host_port` does not return a
pair: `int("abc")` raises an uncaught `ValueError`, so the resolver is
not total over every string value of the port variable. -/
theorem c3_counterexample :
    getAgentHostPort envBadPort optsNone = Except.error "ValueError" := rfl

/-- C3 (amended): endpoint resolution always returns a host/port pair
provided that `INSTANA_AGENT_PORT`, whenever it is set, holds a valid
integer literal; only a host env var paired with a non-integer port
string makes it raise. -/
theorem c3_total_when_port_parses (env : Environ) (opts : Options)
    (hp : ∀ p, env.instanaAgentPort = some p → (pyInt p).isSome = true) :
    ∃ r, getAgentHostPort env opts = Except.ok r := by
  cases hh : env.instanaAgentHost with
  | some h =>
      cases hp0 : env.instanaAgentPort with
      | some p =>
          obtain ⟨n, hn⟩ := Option.isSome_iff_exists.mp (hp p hp0)
          exact ⟨(h, n), by simp [getAgentHostPort, hh, hp0, hn]⟩
      | none =>
          exact ⟨(h, AGENT_DEFAULT_PORT), by simp [getAgentHostPort, hh, hp0]⟩
  | none =>
      cases hi : env.instanaAgentIp with
      | some h =>
          cases hp0 : env.instanaAgentPort with
          | some p =>
              obtain ⟨n, hn⟩ := Option.isSome_iff_exists.mp (hp p hp0)
              exact ⟨(h, n), by simp [getAgentHostPort, hh, hi, hp0, hn]⟩
          | none =>
              exact ⟨(h, AGENT_DEFAULT_PORT),
                by simp [getAgentHostPort, hh, hi, hp0]⟩
      | none =>
          by_cases ho : opts.agent_host = ""
          · exact ⟨(AGENT_DEFAULT_HOST, AGENT_DEFAULT_PORT),
              by simp [getAgentHostPort, hh, hi, ho]⟩
          · exact ⟨(opts.agent_host,
              if opts.agent_port ≠ 0 then opts.agent_port
              else AGENT_DEFAULT_PORT),
              by simp [getAgentHostPort, hh, hi, ho]⟩

/-- Witness for C3 (amended) with nothing configured: the resolver
returns the built-in defaults. -/
theorem c3_total_when_port_parses_witness :
    ∃ r, getAgentHostPort
      { instanaAgentHost := none, instanaAgentPort := none,
        instanaAgentIp := none } optsNone = Except.ok r :=
  c3_total_when_port_parses _ _ (fun _ hp => Option.noConfusion hp)

/-- A machine sitting in the `found` state, as after a successful
probe's fysom `lookup` transition. -/
def mFound : Machine :=
  { initMachine with fsmState := FState.found, visited := [FState.found] }

/-- C1 counterexample: with nothing configured, a matching probe and an
empty announce response, the startup lookup leaves the machine in
`announced` — not `found` — because the fysom `announce` event
transitions before its `onannounce` callback observes the empty
response; exactly one "announce" retry is scheduled. -/
theorem c1_counterexample :
    (fireLookup aEmptyResp initMachine).retries = ["announce"] ∧
    (fireLookup aEmptyResp initMachine).fsmState = FState.announced ∧
    (fireLookup aEmptyResp initMachine).fsmState ≠ FState.found :=
  ⟨rfl, rfl, by decide⟩

/-- C1 (amended): for every announce attempt fired from `found` whose
discovery record is built and whose agent response is empty, exactly
one retry tagged "announce" is scheduled and the failure itself causes
no further transition; but the machine is in `announced` when the
callback runs (the fysom `announce` event transitions before invoking
it), so the state after the failed attempt is `announced`, not `found`,
and it does not advance to `good2go`. -/
theorem c1_announce_retry (a : Attempt) (m : Machine)
    (hst : m.fsmState = FState.found)
    (hd : (builtDiscovery a).isSome = true)
    (hresp : a.announceResp = none) :
    (fireAnnounce a m).fsmState = FState.announced ∧
    (fireAnnounce a m).retries = m.retries ++ ["announce"] ∧
    (fireAnnounce a m).conn = m.conn ∧
    (fireAnnounce a m).meterRuns = m.meterRuns := by
  obtain ⟨d, hd2⟩ := Option.isSome_iff_exists.mp hd
  simp [fireAnnounce, announce_sensor, hst, hd2, hresp]

/-- Witness for C1 (amended) at a concrete empty-response announce. -/
theorem c1_announce_retry_witness :
    (fireAnnounce aEmptyResp mFound).fsmState = FState.announced ∧
    (fireAnnounce aEmptyResp mFound).retries = mFound.retries ++ ["announce"] ∧
    (fireAnnounce aEmptyResp mFound).conn = mFound.conn ∧
    (fireAnnounce aEmptyResp mFound).meterRuns = mFound.meterRuns :=
  c1_announce_retry aEmptyResp mFound rfl rfl rfl

/-- C2 counterexample: with nothing configured, no agent answering and
no `/proc/`, the startup lookup schedules exactly one "agent_lookup"
retry, but the machine is left in `found` — not `unresolved` — because
the fysom `lookup` event transitions to its destination before the
`onlookup` callback runs. -/
theorem c2_counterexample :
    (fireLookup aNoAgent initMachine).retries = ["agent_lookup"] ∧
    (fireLookup aNoAgent initMachine).fsmState = FState.found ∧
    (fireLookup aNoAgent initMachine).fsmState ≠ FState.unresolved :=
  ⟨rfl, rfl, by decide⟩

lemma lookup_fail_eq (a : Attempt) (m : Machine) (h : String) (p : Int)
    (hres : getAgentHostPort a.environ a.opts = Except.ok (h, p))
    (hprobe : a.checkHost h p ≠ some AGENT_HEADER)
    (hproc : a.procExists = false) :
    lookup_agent_host a m = lookupFail m := by
  unfold lookup_agent_host
  split
  · next heq => rw [hres] at heq; cases heq
  · next hp2 heq =>
      rw [hres] at heq
      injection heq with heq2
      subst heq2
      rw [if_neg hprobe, hproc]
      rfl

/-- C2 (amended): for every lookup attempt whose resolved endpoint is
probed without the marker header and with introspection unavailable,
exactly one retry tagged "agent_lookup" is scheduled and the failure
itself causes no transition; but the fysom `lookup` event has already
moved the machine to `found` before the callback runs, so the state
after the failed attempt is `found`, not `unresolved`. -/
theorem c2_lookup_retry (a : Attempt) (m : Machine) (h : String) (p : Int)
    (hres : getAgentHostPort a.environ a.opts = Except.ok (h, p))
    (hprobe : a.checkHost h p ≠ some AGENT_HEADER)
    (hproc : a.procExists = false) :
    (fireLookup a m).fsmState = FState.found ∧
    (fireLookup a m).retries = m.retries ++ ["agent_lookup"] ∧
    (fireLookup a m).conn = m.conn ∧
    (fireLookup a m).meterRuns = m.meterRuns := by
  unfold fireLookup
  split
  · next hst =>
      rw [lookup_fail_eq a m h p hres hprobe hproc]
      unfold lookupFail
      split <;> simp_all
  · rw [lookup_fail_eq a _ h p hres hprobe hproc]
    unfold lookupFail
    split <;> simp_all

/-- Witness for C2 (amended) at a concrete agentless lookup. -/
theorem c2_lookup_retry_witness :
    (fireLookup aNoAgent initMachine).fsmState = FState.found ∧
    (fireLookup aNoAgent initMachine).retries =
      initMachine.retries ++ ["agent_lookup"] ∧
    (fireLookup aNoAgent initMachine).conn = initMachine.conn ∧
    (fireLookup aNoAgent initMachine).meterRuns = initMachine.meterRuns :=
  c2_lookup_retry aNoAgent initMachine "localhost" 42699 rfl
    (fun hc => Option.noConfusion hc) rfl

lemma announce_conn_hp (a : Attempt) (m : Machine) :
    (announce_sensor a m).conn.host = m.conn.host ∧
    (announce_sensor a m).conn.port = m.conn.port := by
  unfold announce_sensor fireReady startMetricReporting
  split
  · exact ⟨rfl, rfl⟩
  · split
    · split
      · exact ⟨rfl, rfl⟩
      · exact ⟨rfl, rfl⟩
    · exact ⟨rfl, rfl⟩

lemma announce_visited_ext (a : Attempt) (m : Machine) :
    ∃ tail, (announce_sensor a m).visited = m.visited ++ tail := by
  unfold announce_sensor fireReady startMetricReporting
  split
  · exact ⟨[], by simp⟩
  · split
    · split
      · exact ⟨[FState.good2go], rfl⟩
      · exact ⟨[], by simp⟩
    · exact ⟨[], by simp⟩

/-- C7: for every lookup attempt from the initial state whose resolved
endpoint is probed and answers with the marker header, exactly that
host and that port are recorded on the shared agent connection (and
survive the rest of the attempt), and the machine transitions into
`found` (the trajectory records `found` right after the prior
history). -/
theorem c7_lookup_records_endpoint (a : Attempt) (m : Machine)
    (h : String) (p : Int)
    (hres : getAgentHostPort a.environ a.opts = Except.ok (h, p))
    (hprobe : a.checkHost h p = some AGENT_HEADER)
    (hst : m.fsmState = FState.unresolved) :
    (fireLookup a m).conn.host = h ∧
    (fireLookup a m).conn.port = p ∧
    ∃ tail, (fireLookup a m).visited = m.visited ++ FState.found :: tail := by
  have hred : fireLookup a m =
      announce_sensor a
        { m with fsmState := FState.announced,
                 visited := (m.visited ++ [FState.found]) ++ [FState.announced],
                 conn := { m.conn with host := h, port := p } } := by
    unfold fireLookup
    rw [hst, if_neg (by decide)]
    unfold lookup_agent_host
    split
    · next heq => rw [hres] at heq; cases heq
    · next hp2 heq =>
        rw [hres] at heq
        injection heq with heq2
        subst heq2
        rw [if_pos hprobe]
        unfold fireAnnounce
        rw [if_pos rfl]
  rw [hred]
  obtain ⟨hh, hp3⟩ := announce_conn_hp a _
  obtain ⟨tail, htail⟩ := announce_visited_ext a _
  refine ⟨hh, hp3, FState.announced :: tail, ?_⟩
  rw [htail]
  simp

/-- Witness for C7 at a concrete successful probe with nothing
configured: the default endpoint is recorded. -/
theorem c7_lookup_records_endpoint_witness :
    (fireLookup aGood initMachine).conn.host = "localhost" ∧
    (fireLookup aGood initMachine).conn.port = 42699 ∧
    ∃ tail, (fireLookup aGood initMachine).visited =
      initMachine.visited ++ FState.found :: tail :=
  c7_lookup_records_endpoint aGood initMachine "localhost" 42699 rfl rfl rfl

/-- C5 counterexample: on an announce attempt where the self-observed
pid (1) differs from the kernel-observed pid (42), the discovery record
serializes to exactly the five fields `pid`, `name`, `args`, `fd`,
`inode`; it carries a single pid value (the kernel one) and no field at
all holds the self-observed pid, so the record does not contain
`reportedPid` and `kernelPid` as distinct fields. -/
theorem c5_counterexample :
    ((builtDiscovery aPid).map Discovery.to_dict =
      some [("pid", PyVal.int 42), ("name", PyVal.str "python"),
            ("args", PyVal.strList ["app.py"]), ("fd", PyVal.int 5),
            ("inode", PyVal.str "socket:[12345]")]) ∧
    (((builtDiscovery aPid).map Discovery.to_dict).getD []).all
        (fun kv => decide (kv.2 ≠ PyVal.int aPid.ospid)) = true :=
  ⟨rfl, rfl⟩

/-- C5 (amended): every discovery record that is built carries exactly
the fields `pid`, `name`, `args`, `fd`, `inode`, with `pid` set to the
single resolved pid (the kernel-observed pid when `/proc` introspection
succeeds, else the self-observed pid) and `name`/`args` split from the
resolved command line; there is no separate field for the self-observed
pid. -/
theorem c5_single_pid_field (a : Attempt) (d : Discovery)
    (hd : builtDiscovery a = some d) :
    d.pid = getRealPid a ∧
    d.to_dict.map Prod.fst = ["pid", "name", "args", "fd", "inode"] ∧
    (∀ n2 args2, a.cmdline = n2 :: args2 →
      d.name = some n2 ∧ d.args = args2) := by
  unfold builtDiscovery at hd
  cases hc : a.cmdline with
  | nil => rw [hc] at hd; cases hd
  | cons n args =>
      rw [hc] at hd
      dsimp only at hd
      split at hd
      · split at hd
        · injection hd with hd2
          subst hd2
          refine ⟨rfl, rfl, ?_⟩
          intro n2 args2 h2
          injection h2 with e1 e2
          exact ⟨by rw [e1], by rw [e2]⟩
        · cases hd
      · injection hd with hd2
        subst hd2
        refine ⟨rfl, rfl, ?_⟩
        intro n2 args2 h2
        injection h2 with e1 e2
        exact ⟨by rw [e1], by rw [e2]⟩

/-- Witness for C5 (amended) at the concrete `/proc` attempt `aPid`. -/
theorem c5_single_pid_field_witness :
    ({ pid := 42, name := some "python", args := ["app.py"], fd := 5,
       inode := "socket:[12345]" } : Discovery).pid = getRealPid aPid ∧
    ({ pid := 42, name := some "python", args := ["app.py"], fd := 5,
       inode := "socket:[12345]" } : Discovery).to_dict.map Prod.fst =
      ["pid", "name", "args", "fd", "inode"] ∧
    (∀ n2 args2, aPid.cmdline = n2 :: args2 →
      ({ pid := 42, name := some "python", args := ["app.py"], fd := 5,
         inode := "socket:[12345]" } : Discovery).name = some n2 ∧
      ({ pid := 42, name := some "python", args := ["app.py"], fd := 5,
         inode := "socket:[12345]" } : Discovery).args = args2) :=
  c5_single_pid_field aPid _ rfl

/-- C10: when `/proc` introspection is unavailable, the discovery
record is still built with the socket fields present, carrying the
class-default sentinels `fd = -1` and `inode = ""`; `to_dict` does not
omit them. -/
theorem c10_socket_sentinels (a : Attempt) (n : String) (args : List String)
    (hproc : a.procExists = false) (hc : a.cmdline = n :: args) :
    ∃ d, builtDiscovery a = some d ∧ d.fd = -1 ∧ d.inode = "" ∧
      ("fd", PyVal.int (-1)) ∈ d.to_dict ∧
      ("inode", PyVal.str "") ∈ d.to_dict := by
  refine ⟨{ pid := getRealPid a, name := some n, args := args },
    ?_, rfl, rfl, ?_, ?_⟩
  · unfold builtDiscovery
    rw [hc]
    dsimp only
    rw [hproc]
    rfl
  · simp [Discovery.to_dict]
  · simp [Discovery.to_dict]

/-- Witness for C10 at a concrete no-`/proc` attempt. -/
theorem c10_socket_sentinels_witness :
    ∃ d, builtDiscovery aNoAgent = some d ∧ d.fd = -1 ∧ d.inode = "" ∧
      ("fd", PyVal.int (-1)) ∈ d.to_dict ∧
      ("inode", PyVal.str "") ∈ d.to_dict :=
  c10_socket_sentinels aNoAgent "python" ["app.py"] rfl rfl

/-- C6: endpoint resolution follows the four-tier first-match-wins
precedence of `__get_agent_host_port`: primary env host (env port if
set and parsing, else default port); else deprecated `INSTANA_AGENT_IP`
host with the same port-pairing rule; else non-empty options host (with
options port when non-zero, else default port); else built-in defaults.
Once an earlier tier supplies a host, later sources are never
consulted: with the primary host set the result is independent of the
deprecated variable and the options, and with the deprecated host set
it is independent of the options. -/
theorem c6_precedence (env : Environ) (opts : Options) :
    (∀ h, env.instanaAgentHost = some h →
        (env.instanaAgentPort = none →
            getAgentHostPort env opts = Except.ok (h, AGENT_DEFAULT_PORT)) ∧
        (∀ p n, env.instanaAgentPort = some p → pyInt p = some n →
            getAgentHostPort env opts = Except.ok (h, n)) ∧
        (∀ ip opts2,
            getAgentHostPort
              { instanaAgentHost := env.instanaAgentHost,
                instanaAgentPort := env.instanaAgentPort,
                instanaAgentIp := ip } opts2 =
              getAgentHostPort env opts)) ∧
    (env.instanaAgentHost = none → ∀ h, env.instanaAgentIp = some h →
        (env.instanaAgentPort = none →
            getAgentHostPort env opts = Except.ok (h, AGENT_DEFAULT_PORT)) ∧
        (∀ p n, env.instanaAgentPort = some p → pyInt p = some n →
            getAgentHostPort env opts = Except.ok (h, n)) ∧
        (∀ opts2, getAgentHostPort env opts2 = getAgentHostPort env opts)) ∧
    (env.instanaAgentHost = none → env.instanaAgentIp = none →
        opts.agent_host ≠ "" →
        getAgentHostPort env opts =
          Except.ok (opts.agent_host,
            if opts.agent_port ≠ 0 then opts.agent_port
            else AGENT_DEFAULT_PORT)) ∧
    (env.instanaAgentHost = none → env.instanaAgentIp = none →
        opts.agent_host = "" →
        getAgentHostPort env opts =
          Except.ok (AGENT_DEFAULT_HOST, AGENT_DEFAULT_PORT)) := by
  refine ⟨?_, ?_, ?_, ?_⟩
  · intro h hh
    refine ⟨?_, ?_, ?_⟩
    · intro hp0; simp [getAgentHostPort, hh, hp0]
    · intro p n hp0 hn; simp [getAgentHostPort, hh, hp0, hn]
    · intro ip opts2; simp [getAgentHostPort, hh]
  · intro hh h hi
    refine ⟨?_, ?_, ?_⟩
    · intro hp0; simp [getAgentHostPort, hh, hi, hp0]
    · intro p n hp0 hn; simp [getAgentHostPort, hh, hi, hp0, hn]
    · intro opts2; simp [getAgentHostPort, hh, hi]
  · intro hh hi ho; simp [getAgentHostPort, hh, hi, ho]
  · intro hh hi ho; simp [getAgentHostPort, hh, hi, ho]

/-- An environment carrying only the deprecated host alias. -/
def envIpOnly : Environ :=
  { instanaAgentHost := none, instanaAgentPort := none,
    instanaAgentIp := some "10.1.2.3" }

/-- Witness for C6: the deprecated alias alone yields its host with the
default port. -/
theorem c6_precedence_witness :
    getAgentHostPort envIpOnly optsNone =
      Except.ok ("10.1.2.3", AGENT_DEFAULT_PORT) :=
  ((c6_precedence envIpOnly optsNone).2.1 rfl "10.1.2.3" rfl).1 rfl

end Instana
